import Mathlib

/-!
Verification development for the pathway-database aggregation layer of the
SBGN Pathway Viewer (file `src/services/pathwayService.ts`, plus the
`Sidebar` highlight effect of the sidebar component).

Modelling conventions:
* JavaScript strings are modelled as `List Char` (`JStr`); Lean's `String`
  operations do not reduce in the kernel, so the JS string primitives used by
  the source (`split`, `trim`, `startsWith`, `join`, `replace`,
  `toLowerCase`) are re-implemented here as executable functions on
  `List Char` with the same semantics.
* `fetch` is modelled by a `Net` record mapping each endpoint (with its
  request parameters) to an `HttpResp`: either a network-level failure
  (`fetch` rejecting) or a response with a status code and a body.  Bodies of
  JSON endpoints are modelled at the decoded level (the shape the source
  reads after `response.json()`); bodies of plain-text endpoints are `JStr`.
* A JS `Set` (insertion-ordered, deduplicating) is modelled as a `List JStr`
  into which elements are inserted with `addToSet`.
* `Array.prototype.sort(cmp)` with the `localeCompare` comparator is
  modelled as a stable sort by a case-insensitive lexicographic Bool-valued
  order `lowerLe` (locale collation is approximated by lower-casing).  A
  stable sort by a total preorder is unique, and `List.insertionSort` is
  stable (a later-inserted element is placed before its ties, and
  `foldr` inserts earlier array elements later), so it coincides with the
  ECMAScript stable `sort`.
* Functions that can `throw` return `Except JStr α`; a `try`/`catch` block
  in the source becomes an inner function producing the `Except` and an
  outer wrapper handling the `.error` case exactly as the `catch` does.
* Functions whose claims concern the number of network calls additionally
  return the list of `Request`s they issued, in issue order.
-/

/-- JavaScript strings, modelled as lists of characters. -/
abbrev JStr := List Char

/-- Coerce a Lean string literal to the `List Char` model. -/
def str (s : String) : JStr := s.data

/-- JS `String.prototype.split(sep)` for a single-character separator
(the source only ever splits on `'\t'` and `'\n'`). -/
def splitOnChar (c : Char) : JStr → List JStr
  | [] => [[]]
  | x :: xs =>
    let r := splitOnChar c xs
    if x = c then [] :: r
    else match r with
      | h :: t => (x :: h) :: t
      | [] => [[x]]

/-- Whitespace characters removed by JS `String.prototype.trim`
(restricted to the ASCII whitespace that occurs in the modelled payloads). -/
def isJsWs (c : Char) : Bool := c = ' ' || c = '\t' || c = '\n' || c = '\r'

/-- JS `String.prototype.trim`. -/
def jsTrim (s : JStr) : JStr :=
  ((s.dropWhile isJsWs).reverse.dropWhile isJsWs).reverse

/-- JS `String.prototype.startsWith`. -/
def jsStartsWith (s pre : JStr) : Bool := pre.isPrefixOf s

/-- JS `String.prototype.replace(pat, rep)` with a string pattern: replaces
only the first occurrence of `pat` (the source uses `replace('path:', '')`). -/
def replaceFirst (pat rep : JStr) : JStr → JStr
  | [] => if pat = [] then rep else []
  | c :: cs =>
    if pat.isPrefixOf (c :: cs) then rep ++ (c :: cs).drop pat.length
    else c :: replaceFirst pat rep cs

/-- JS `Array.prototype.join(sep)` on an array of strings. -/
def jsJoin (sep : JStr) (xs : List JStr) : JStr := List.intercalate sep xs

/-- JS `String.prototype.toLowerCase` (ASCII case folding). -/
def jsToLower (s : JStr) : JStr := s.map Char.toLower

/-- Truthiness of an optional JS string field (`undefined`/`null` and the
empty string are falsy). -/
def truthyStr (o : Option JStr) : Bool :=
  match o with
  | some s => s ≠ []
  | none => false

/-- Truthiness of an optional JS number field (`undefined`/`null` and `0`
are falsy). -/
def truthyNum (o : Option Int) : Bool :=
  match o with
  | some n => n ≠ 0
  | none => false

/-- The comparator model for `(a, b) => a.displayName.localeCompare(b.displayName)`
sorts: case-insensitive lexicographic order on the lower-cased text. -/
def lowerLe (a b : JStr) : Bool := decide (jsToLower a ≤ jsToLower b)

/-- `response.ok` : status in the inclusive range 200–299. -/
def statusOk (status : Nat) : Bool := 200 ≤ status && status ≤ 299

/-- Outcome of a `fetch`: either the promise rejects (network-level failure)
or a response with an HTTP status and a (typed) body is delivered. -/
inductive HttpResp (α : Type) where
  | netFail : HttpResp α
  | resp (status : Nat) (body : α) : HttpResp α
deriving DecidableEq, Repr

/-- The canonical `Species {id, displayName}` record. -/
structure Species where
  id : JStr
  displayName : JStr
deriving DecidableEq, Repr

/-- The canonical `Pathway {id, displayName}` record. -/
structure Pathway where
  id : JStr
  displayName : JStr
deriving DecidableEq, Repr

/-- The `PathwayDatabase` union type of `types.ts`. -/
inductive PathwayDatabase where
  | Reactome | KEGG | MetaCyc | SMPDB | PANTHER | METACROP | CustomSBGNFile
deriving DecidableEq, Repr

/-- JS `Set.prototype.add`: appends iff not already present (JS sets keep
insertion order and deduplicate). -/
def addToSet (l : List JStr) (x : JStr) : List JStr :=
  if x ∈ l then l else l ++ [x]

/-- `array.sort((a, b) => a.displayName.localeCompare(b.displayName))` on
species records. -/
def sortSpecies (l : List Species) : List Species :=
  List.insertionSort (fun a b => lowerLe a.displayName b.displayName = true) l

/-- `array.sort((a, b) => a.displayName.localeCompare(b.displayName))` on
pathway records. -/
def sortPathways (l : List Pathway) : List Pathway :=
  List.insertionSort (fun a b => lowerLe a.displayName b.displayName = true) l

/-! ## Wire payload models (the decoded shapes the source reads) -/
/-- One entry of the Reactome `data/species/all` JSON array, as the source
reads it: record fields are `Option`s (`none` models an absent field or one
of the wrong runtime type, which the `typeof` filters reject), and a whole
entry may be `null` (the outer `Option` in the payload list). -/
structure ReactomeSpeciesRec where
  displayName : Option JStr
  dbId : Option Int
deriving DecidableEq, Repr

/-- One entry of the Reactome `data/pathways/low/species/{id}` JSON array. -/
structure ReactomePathwayRec where
  stId : Option JStr
  displayName : Option JStr
deriving DecidableEq, Repr

/-- One record of the SMPDB global `pathways.json` array. -/
structure SmpdbRec where
  species_taxonomy_id : Option JStr
  species_name : Option JStr
  smp_id : Option JStr
  name : Option JStr
deriving DecidableEq, Repr

/-- One organism of the PANTHER `search.organism_list.organism` array. -/
structure PantherOrgRec where
  taxon_id : Option Int
  long_name : Option JStr
deriving DecidableEq, Repr

/-- One pathway of the PANTHER `search.pathway_list.pathway` array. -/
structure PantherPathwayRec where
  id : Option JStr
  name : Option JStr
deriving DecidableEq, Repr

/-- A `<ptools-db orgid=... name=.../>` element of the BioCyc `dbs` XML
(`getAttribute` returns `null` for a missing attribute, modelled as `none`). -/
structure PtoolsDbElem where
  orgid : Option JStr
  name : Option JStr
deriving DecidableEq, Repr

/-- A `<Pathway ID=... common-name=.../>` element of the BioCyc pathways XML. -/
structure BiocycPathwayElem where
  idAttr : Option JStr
  commonName : Option JStr
deriving DecidableEq, Repr

/-- One pathway record of the Reactome mapping response (`{stId: string}`,
as the source's inline type asserts). -/
structure ReactomeMapPathwayRec where
  stId : JStr
deriving DecidableEq, Repr

/-- The Reactome `data/mapping/{speciesId}/identifier` JSON response; the
source only reads `data.pathways`, guarded by truthiness (`none` models a
missing field). -/
structure ReactomeMappingResp where
  pathways : Option (List ReactomeMapPathwayRec)
deriving DecidableEq, Repr

/-- A network request issued by the layer, identified by endpoint and the
parameters the source interpolates into the URL (or sends as the body).
`keggFindReq`'s argument is the raw gene id (`encodeURIComponent` is
injective, so keying by the raw id is equivalent). -/
inductive Request where
  | reactomePathwaysReq (speciesId : JStr)
  | keggListPathwayReq (speciesId : JStr)
  | smpdbPathwaysReq
  | pantherPathwaysReq (speciesId : JStr)
  | metacycPathwaysReq (speciesId : JStr)
  | keggFindReq (geneId : JStr)
  | keggLinkReq (ids : JStr)
  | reactomeMappingReq (speciesId : JStr) (body : JStr)
deriving DecidableEq, Repr

abbrev ReqLog := List Request

/-- The modelled network: one field per endpoint the source fetches from,
each mapping the request parameters to the outcome of that fetch. -/
structure Net where
  reactomeSpecies : HttpResp (List (Option ReactomeSpeciesRec))
  keggOrganisms : HttpResp JStr
  metacycDbs : HttpResp (List PtoolsDbElem)
  smpdbPathways : HttpResp (List SmpdbRec)
  pantherOrganisms : HttpResp (Option (List PantherOrgRec))
  reactomePathways : JStr → HttpResp (List (Option ReactomePathwayRec))
  keggListPathway : JStr → HttpResp JStr
  pantherPathways : JStr → HttpResp (Option (List PantherPathwayRec))
  metacycPathways : JStr → HttpResp (List BiocycPathwayElem)
  keggFindGenes : JStr → HttpResp JStr
  keggLinkPathway : JStr → HttpResp JStr
  reactomeMapping : JStr → JStr → HttpResp ReactomeMappingResp

/-- JS `Number.prototype.toString` for the integer ids the sources carry. -/
def numToStr (n : Int) : JStr := (toString n).data

/-! ## Species catalogue fetchers (`fetchSpecies` and its per-source
helpers, `pathwayService.ts` lines 14–161).  Species fetchers do not
carry a request log: no claim counts their calls. -/
/-- `fetchReactomeSpecies` (lines 14–29): non-OK status throws inside the
`try`, and every failure is caught and rethrown as the fixed message. -/
def fetchReactomeSpecies (r : HttpResp (List (Option ReactomeSpeciesRec))) :
    Except JStr (List Species) :=
  match r with
  | .netFail => .error (str "Failed to fetch species from Reactome. Check network connection or API status.")
  | .resp status data =>
    if !statusOk status then
      .error (str "Failed to fetch species from Reactome. Check network connection or API status.")
    else
      .ok (sortSpecies (data.filterMap fun o =>
        match o with
        | some s =>
          match s.displayName, s.dbId with
          | some dn, some dbId => some { id := numToStr dbId, displayName := dn }
          | _, _ => none
        | none => none))

/-- Parse one line of the KEGG organism list: columns `[T-number, code,
name, lineage]`; lines with fewer than three tab-separated parts map to
`null` and are filtered out. -/
def keggSpeciesOfLine (line : JStr) : Option Species :=
  match splitOnChar '\t' line with
  | _ :: p1 :: p2 :: _ => some { id := p1, displayName := p2 }
  | _ => none

/-- `fetchKeggSpecies` (lines 31–53). -/
def fetchKeggSpecies (r : HttpResp JStr) : Except JStr (List Species) :=
  match r with
  | .netFail => .error (str "Failed to fetch species from KEGG. The CORS proxy may be down.")
  | .resp status textData =>
    if !statusOk status then
      .error (str "Failed to fetch species from KEGG. The CORS proxy may be down.")
    else
      .ok (sortSpecies ((splitOnChar '\n' (jsTrim textData)).filterMap keggSpeciesOfLine))

/-- `fetchMetaCycSpecies` (lines 55–79): keeps `<ptools-db>` elements whose
`orgid` and `name` attributes are both present and truthy. -/
def fetchMetaCycSpecies (r : HttpResp (List PtoolsDbElem)) :
    Except JStr (List Species) :=
  match r with
  | .netFail => .error (str "Failed to fetch species from MetaCyc. Check network connection or API status.")
  | .resp status els =>
    if !statusOk status then
      .error (str "Failed to fetch species from MetaCyc. Check network connection or API status.")
    else
      .ok (sortSpecies (els.filterMap fun el =>
        if truthyStr el.orgid && truthyStr el.name then
          some { id := el.orgid.getD [], displayName := el.name.getD [] }
        else none))

/-- JS `Map.prototype.set` on an insertion-ordered association list: update
in place if the key exists, else append. -/
def jsMapSet (m : List (JStr × JStr)) (k v : JStr) : List (JStr × JStr) :=
  if m.any (fun kv => kv.1 = k) then
    m.map fun kv => if kv.1 = k then (k, v) else kv
  else m ++ [(k, v)]

/-- The `speciesMap` pivot of `fetchSmpdbSpecies`: fold the global pathway
array, inserting `(species_taxonomy_id, species_name)` for every record on
which both fields are truthy. -/
def smpdbSpeciesMap (data : List SmpdbRec) : List (JStr × JStr) :=
  data.foldl
    (fun m p =>
      if truthyStr p.species_taxonomy_id && truthyStr p.species_name then
        jsMapSet m (p.species_taxonomy_id.getD []) (p.species_name.getD [])
      else m)
    []

/-- `fetchSmpdbSpecies` (lines 81–100). -/
def fetchSmpdbSpecies (r : HttpResp (List SmpdbRec)) :
    Except JStr (List Species) :=
  match r with
  | .netFail => .error (str "Failed to fetch species from SMPDB. Check network connection or API status.")
  | .resp status data =>
    if !statusOk status then
      .error (str "Failed to fetch species from SMPDB. Check network connection or API status.")
    else
      .ok (sortSpecies ((smpdbSpeciesMap data).map fun kv =>
        { id := kv.1, displayName := kv.2 }))

/-- `fetchPantherSpecies` (lines 102–122): a missing
`search.organism_list.organism` path yields `[]` (with a console warning);
organisms with falsy `taxon_id` or `long_name` are dropped. -/
def fetchPantherSpecies (r : HttpResp (Option (List PantherOrgRec))) :
    Except JStr (List Species) :=
  match r with
  | .netFail => .error (str "Failed to fetch species from PANTHER. The CORS proxy may be down.")
  | .resp status data =>
    if !statusOk status then
      .error (str "Failed to fetch species from PANTHER. The CORS proxy may be down.")
    else
      match data with
      | none => .ok []
      | some organisms =>
        .ok (sortSpecies (organisms.filterMap fun o =>
          if truthyNum o.taxon_id && truthyStr o.long_name then
            some { id := numToStr (o.taxon_id.getD 0), displayName := o.long_name.getD [] }
          else none))

/-- The hardcoded METACROP species list (lines 124–139). -/
def metaCropSpecies : List Species :=
  [ { id := str "bdi", displayName := str "Brachypodium distachyon (Purple False Brome)" },
    { id := str "gma", displayName := str "Glycine max (Soybean)" },
    { id := str "hvu", displayName := str "Hordeum vulgare (Barley)" },
    { id := str "mtr", displayName := str "Medicago truncatula (Barrel Medick)" },
    { id := str "osa", displayName := str "Oryza sativa (Rice)" },
    { id := str "sly", displayName := str "Solanum lycopersicum (Tomato)" },
    { id := str "stu", displayName := str "Solanum tuberosum (Potato)" },
    { id := str "zma", displayName := str "Zea mays (Maize)" } ]

/-- `fetchMetaCropSpecies` (lines 124–139): the fixed list, sorted. -/
def fetchMetaCropSpecies : Except JStr (List Species) :=
  .ok (sortSpecies metaCropSpecies)

/-- `fetchSpecies` (lines 142–161): dispatch on the database selector. -/
def fetchSpecies (net : Net) (database : PathwayDatabase) :
    Except JStr (List Species) :=
  match database with
  | .Reactome => fetchReactomeSpecies net.reactomeSpecies
  | .KEGG => fetchKeggSpecies net.keggOrganisms
  | .MetaCyc => fetchMetaCycSpecies net.metacycDbs
  | .SMPDB => fetchSmpdbSpecies net.smpdbPathways
  | .PANTHER => fetchPantherSpecies net.pantherOrganisms
  | .METACROP => fetchMetaCropSpecies
  | .CustomSBGNFile => .ok []

/-! ## Pathway catalogue fetchers (`fetchPathways` and its per-source
helpers, lines 164–324).  Each returns the requests it issued together
with the result of the `Promise`. -/
/-- `fetchReactomePathways` (lines 164–180): a 404 returns `[]` from inside
the `try`; any other non-OK status (and a network failure, and the rethrown
status error) surfaces as the fixed catch message. -/
def fetchReactomePathways (net : Net) (speciesId : JStr) :
    ReqLog × Except JStr (List Pathway) :=
  let log : ReqLog := [.reactomePathwaysReq speciesId]
  match net.reactomePathways speciesId with
  | .netFail => (log, .error (str "Failed to fetch pathways from Reactome. Check network connection or API status."))
  | .resp status data =>
    if !statusOk status then
      if status = 404 then (log, .ok [])
      else (log, .error (str "Failed to fetch pathways from Reactome. Check network connection or API status."))
    else
      (log, .ok (sortPathways (data.filterMap fun o =>
        match o with
        | some p =>
          match p.displayName, p.stId with
          | some dn, some stId => some { id := stId, displayName := dn }
          | _, _ => none
        | none => none)))

/-- Parse one line of the KEGG pathway list: destructuring
`const [id, displayName] = line.split('\t')` followed by the truthiness
guard `if (id && displayName)`; the `path:` prefix is stripped from the id
(first occurrence, as JS `replace` does). -/
def keggPathwayOfLine (line : JStr) : Option Pathway :=
  match splitOnChar '\t' line with
  | id :: displayName :: _ =>
    if id ≠ [] && displayName ≠ [] then
      some { id := replaceFirst (str "path:") [] id, displayName := displayName }
    else none
  | _ => none

/-- `fetchKeggPathways` (lines 182–205): any non-OK status — including a
404 — throws and is degraded by the `catch` to the fixed message; an empty
(after trimming) body is an early empty result. -/
def fetchKeggPathways (net : Net) (speciesId : JStr) :
    ReqLog × Except JStr (List Pathway) :=
  let log : ReqLog := [.keggListPathwayReq speciesId]
  match net.keggListPathway speciesId with
  | .netFail => (log, .error (str "Failed to fetch pathways from KEGG. The CORS proxy may be down."))
  | .resp status textData =>
    if !statusOk status then
      (log, .error (str "Failed to fetch pathways from KEGG. The CORS proxy may be down."))
    else if jsTrim textData = [] then (log, .ok [])
    else
      (log, .ok (sortPathways ((splitOnChar '\n' (jsTrim textData)).filterMap keggPathwayOfLine)))

/-- The filter of `fetchSmpdbPathways`:
`p.species_taxonomy_id === speciesId && p.smp_id && p.name`. -/
def smpdbPathwayKeep (speciesId : JStr) (p : SmpdbRec) : Bool :=
  p.species_taxonomy_id == some speciesId && truthyStr p.smp_id && truthyStr p.name

/-- `fetchSmpdbPathways` (lines 207–223): fetches the single global
`pathways.json` and filters it client-side by `species_taxonomy_id`. -/
def fetchSmpdbPathways (net : Net) (speciesId : JStr) :
    ReqLog × Except JStr (List Pathway) :=
  let log : ReqLog := [.smpdbPathwaysReq]
  match net.smpdbPathways with
  | .netFail => (log, .error (str "Failed to fetch pathways from SMPDB. Check network connection or API status."))
  | .resp status data =>
    if !statusOk status then
      (log, .error (str "Failed to fetch pathways from SMPDB. Check network connection or API status."))
    else
      (log, .ok (sortPathways (((data.filter (smpdbPathwayKeep speciesId)).map fun p =>
        { id := p.smp_id.getD [], displayName := p.name.getD [] }))))

/-- `fetchPantherPathways` (lines 225–244). -/
def fetchPantherPathways (net : Net) (speciesId : JStr) :
    ReqLog × Except JStr (List Pathway) :=
  let log : ReqLog := [.pantherPathwaysReq speciesId]
  match net.pantherPathways speciesId with
  | .netFail => (log, .error (str "Failed to fetch pathways from PANTHER. The CORS proxy may be down."))
  | .resp status data =>
    if !statusOk status then
      (log, .error (str "Failed to fetch pathways from PANTHER. The CORS proxy may be down."))
    else
      match data with
      | none => (log, .ok [])
      | some pws =>
        (log, .ok (sortPathways (pws.filterMap fun p =>
          if truthyStr p.id && truthyStr p.name then
            some { id := p.id.getD [], displayName := p.name.getD [] }
          else none)))

/-- `fetchMetaCycPathways` (lines 246–271): like Reactome, a 404 is an
empty valid result. -/
def fetchMetaCycPathways (net : Net) (speciesId : JStr) :
    ReqLog × Except JStr (List Pathway) :=
  let log : ReqLog := [.metacycPathwaysReq speciesId]
  match net.metacycPathways speciesId with
  | .netFail => (log, .error (str "Failed to fetch pathways from MetaCyc. Check network connection or API status."))
  | .resp status els =>
    if !statusOk status then
      if status = 404 then (log, .ok [])
      else (log, .error (str "Failed to fetch pathways from MetaCyc. Check network connection or API status."))
    else
      (log, .ok (sortPathways (els.filterMap fun el =>
        if truthyStr el.idAttr && truthyStr el.commonName then
          some { id := el.idAttr.getD [], displayName := el.commonName.getD [] }
        else none)))

/-- The hardcoded METACROP pathway name/slug list (lines 277–294). -/
def metaCropCommonPathways : List (JStr × JStr) :=
  [ (str "Alanine Metabolism", str "alanine_metabolism"),
    (str "Arginine and Proline Metabolism", str "arginine_proline_metabolism"),
    (str "Aspartate and Glutamate Metabolism", str "aspartate_glutamate_metabolism"),
    (str "C4-Dicarboxylic Acid Cycle", str "c4_dicarboxylic_acid_cycle"),
    (str "Calvin Cycle", str "calvin_cycle"),
    (str "Cysteine and Methionine Metabolism", str "cysteine_methionine_metabolism"),
    (str "Fatty Acid Biosynthesis", str "fatty_acid_biosynthesis"),
    (str "Glycolysis", str "glycolysis"),
    (str "Glyoxylate Cycle", str "glyoxylate_cycle"),
    (str "Histidine Metabolism", str "histidine_metabolism"),
    (str "Photorespiration", str "photorespiration"),
    (str "Starch Biosynthesis", str "starch_biosynthesis"),
    (str "Sucrose Biosynthesis", str "sucrose_biosynthesis"),
    (str "TCA Cycle", str "tca_cycle"),
    (str "Threonine and Lysine Metabolism", str "threonine_lysine_metabolism"),
    (str "Valine, Leucine, and Isoleucine Metabolism", str "valine_leucine_isoleucine_metabolism") ]

/-- `fetchMetaCropPathways` (lines 273–302): no network call; ids are
synthesized as `{speciesId}_{slug}`. -/
def fetchMetaCropPathways (speciesId : JStr) :
    ReqLog × Except JStr (List Pathway) :=
  ([], .ok (sortPathways (metaCropCommonPathways.map fun p =>
    { id := speciesId ++ (str "_") ++ p.2, displayName := p.1 })))

/-- `fetchPathways` (lines 304–324): the empty-species guard
(`if (!speciesId) return []`) runs before the dispatch. -/
def fetchPathways (net : Net) (database : PathwayDatabase) (speciesId : JStr) :
    ReqLog × Except JStr (List Pathway) :=
  if speciesId = [] then ([], .ok [])
  else
    match database with
    | .Reactome => fetchReactomePathways net speciesId
    | .KEGG => fetchKeggPathways net speciesId
    | .SMPDB => fetchSmpdbPathways net speciesId
    | .PANTHER => fetchPantherPathways net speciesId
    | .MetaCyc => fetchMetaCycPathways net speciesId
    | .METACROP => fetchMetaCropPathways speciesId
    | .CustomSBGNFile => ([], .ok [])

/-! ## Identifier mappers (lines 334–430). -/
/-- `mapGenesToPathways` (Reactome, lines 334–364): one POST whose body is
the identifiers joined by commas; every failure path of the `try` — network
rejection, the status error thrown on a non-OK response — is caught and
degraded to an empty set, so no `Except` layer is observable.  Returns the
issued request and the resulting `MatchSet`. -/
def mapGenesToPathways (net : Net) (speciesId : JStr) (geneIds : List JStr) :
    ReqLog × List JStr :=
  let body := jsJoin (str ",") geneIds
  let log : ReqLog := [.reactomeMappingReq speciesId body]
  match net.reactomeMapping speciesId body with
  | .netFail => (log, [])
  | .resp status data =>
    if !statusOk status then (log, [])
    else
      match data.pathways with
      | none => (log, [])
      | some pws => (log, pws.foldl (fun s p => addToSet s p.stId) [])

/-- The text a single Phase-1 find response contributes:
`res.ok ? res.text() : Promise.resolve('')`.  A network-level rejection is
not handled here (it rejects the whole `Promise.all`); this function is
only meaningful when the response is not `netFail`. -/
def keggFindText (r : HttpResp JStr) : JStr :=
  match r with
  | .resp status body => if statusOk status then body else []
  | .netFail => []

/-- Accumulate the KEGG gene-id set from the Phase-1 response texts: skip
falsy (empty) texts, split the rest into lines, keep lines starting with
`{speciesId}:`, and add `line.split('\t')[0]` to the set. -/
def keggGeneIdsFromTexts (speciesId : JStr) (texts : List JStr) : List JStr :=
  texts.foldl
    (fun acc textResult =>
      if textResult ≠ [] then
        (splitOnChar '\n' (jsTrim textResult)).foldl
          (fun acc2 line =>
            if jsStartsWith line (speciesId ++ (str ":")) then
              addToSet acc2 ((splitOnChar '\t' line).headD [])
            else acc2)
          acc
      else acc)
    []

/-- The Phase-1 gene-id set of `mapGenesToPathwaysKegg` as a function of
the network. -/
def keggGeneIdsOf (net : Net) (speciesId : JStr) (geneIds : List JStr) : List JStr :=
  keggGeneIdsFromTexts speciesId (geneIds.map fun g => keggFindText (net.keggFindGenes g))

/-- Parse the Phase-2 link response body into the pathway-id set: for each
truthy line with more than one tab-separated part, strip the `path:`
prefix from part 1 and add it to the set. -/
def keggPathwayIdsFromLinkText (linkText : JStr) : List JStr :=
  (splitOnChar '\n' (jsTrim linkText)).foldl
    (fun acc line =>
      if line ≠ [] then
        let parts := splitOnChar '\t' line
        if parts.length > 1 then
          addToSet acc (replaceFirst (str "path:") [] (parts.getD 1 []))
        else acc
      else acc)
    []

/-- The body of the `try` block of `mapGenesToPathwaysKegg` (lines
376–425), returning the issued requests and either the computed set or the
error the `catch` will receive.  All Phase-1 fetches are initiated before
`await Promise.all`, so the find requests are always logged; if any of them
rejects at the network level the whole `Promise.all` rejects. -/
def mapGenesToPathwaysKeggInner (net : Net) (speciesId : JStr)
    (geneIds : List JStr) : ReqLog × Except JStr (List JStr) :=
  let findLog : ReqLog := geneIds.map .keggFindReq
  if geneIds.any (fun g => net.keggFindGenes g = .netFail) then
    (findLog, .error (str "TypeError: Failed to fetch"))
  else
    let keggGeneIds := keggGeneIdsOf net speciesId geneIds
    if keggGeneIds.isEmpty then (findLog, .ok [])
    else
      let keggIdsString := jsJoin (str "+") keggGeneIds
      let log := findLog ++ [.keggLinkReq keggIdsString]
      match net.keggLinkPathway keggIdsString with
      | .netFail => (log, .error (str "TypeError: Failed to fetch"))
      | .resp status linkText =>
        if !statusOk status then
          if status = 404 then (log, .ok [])
          else (log, .error (str "KEGG link API returned an error status"))
        else
          (log, .ok (keggPathwayIdsFromLinkText linkText))

/-- `mapGenesToPathwaysKegg` (lines 372–430): the guard
`if (!speciesId || geneIds.length === 0)` runs before the `try`; the
`catch` degrades every error of the inner body to an empty set. -/
def mapGenesToPathwaysKegg (net : Net) (speciesId : JStr)
    (geneIds : List JStr) : ReqLog × List JStr :=
  if speciesId = [] || geneIds.isEmpty then ([], [])
  else
    match mapGenesToPathwaysKeggInner net speciesId geneIds with
    | (log, .ok s) => (log, s)
    | (log, .error _) => (log, [])

/-! ## The `Sidebar` highlight effect (component source, `findHighlights`
effect): the reactive state transitions relevant to mapping responses.
The effect debounces `findHighlights` with a 300 ms timer whose cleanup
(`clearTimeout`) can cancel a request that has not started yet, but once a
mapping request is in flight its response is applied by
`setHighlightedPathways(mappedPathwayIds)` unconditionally — the response
carries no tag of the selection that originated it and no staleness check
is performed on arrival. -/
/-- The selection snapshot that originates a mapping request: source,
species, and the identifier-set snapshot parsed from the gene data. -/
structure Selection where
  database : PathwayDatabase
  speciesId : JStr
  geneIds : List JStr
deriving DecidableEq, Repr

/-- The component state the effect touches: the current selection
(dependencies of the effect) and the `highlightedPathways` MatchSet. -/
structure SidebarState where
  selection : Selection
  highlightedPathways : List JStr
deriving DecidableEq, Repr

/-- Events observable at this state: the selection changes, or a mapping
response originated by some (possibly old) selection snapshot arrives.  A
`resolve` for a stale origin is reachable in the source: once the debounce
timer has fired, `clearTimeout` in the effect cleanup is a no-op and the
in-flight request keeps running while the selection moves on. -/
inductive SidebarEvent where
  | select (sel : Selection)
  | resolve (origin : Selection) (result : List JStr)

/-- One step of the component as written: a mapping response is applied by
`setHighlightedPathways(mappedPathwayIds)` with no comparison between its
originating selection and the current one. -/
def sidebarStep (st : SidebarState) : SidebarEvent → SidebarState
  | .select sel => { st with selection := sel }
  | .resolve _origin result => { st with highlightedPathways := result }

/-- Run the component over a sequence of events. -/
def runSidebar (init : SidebarState) (events : List SidebarEvent) : SidebarState :=
  events.foldl sidebarStep init

/-- Modelled from the spec: the cancellation-by-staleness discipline the
spec requires of the implementation — "every mapping response must be
tagged with the request's originating selection (source, species,
identifier-set snapshot) and discarded on arrival if it no longer matches
the current selection".  This handler is absent from the source. -/
def sidebarStepSpec (st : SidebarState) : SidebarEvent → SidebarState
  | .select sel => { st with selection := sel }
  | .resolve origin result =>
    if origin = st.selection then { st with highlightedPathways := result } else st

/-- Run the spec-required component over a sequence of events. -/
def runSidebarSpec (init : SidebarState) (events : List SidebarEvent) : SidebarState :=
  events.foldl sidebarStepSpec init

/-! ## Helper networks used by the concrete theorems -/
/-- A network on which every fetch rejects. -/
def emptyNet : Net where
  reactomeSpecies := .netFail
  keggOrganisms := .netFail
  metacycDbs := .netFail
  smpdbPathways := .netFail
  pantherOrganisms := .netFail
  reactomePathways := fun _ => .netFail
  keggListPathway := fun _ => .netFail
  pantherPathways := fun _ => .netFail
  metacycPathways := fun _ => .netFail
  keggFindGenes := fun _ => .netFail
  keggLinkPathway := fun _ => .netFail
  reactomeMapping := fun _ _ => .netFail

/-- A network on which every endpoint answers with the given status and an
empty body. -/
def constNet (status : Nat) : Net where
  reactomeSpecies := .resp status []
  keggOrganisms := .resp status []
  metacycDbs := .resp status []
  smpdbPathways := .resp status []
  pantherOrganisms := .resp status none
  reactomePathways := fun _ => .resp status []
  keggListPathway := fun _ => .resp status []
  pantherPathways := fun _ => .resp status none
  metacycPathways := fun _ => .resp status []
  keggFindGenes := fun _ => .resp status []
  keggLinkPathway := fun _ => .resp status []
  reactomeMapping := fun _ _ => .resp status { pathways := none }

/-- C4 network: the find phase resolves CDC20 (with an extra non-`hsa` line
that the species filter must drop) and AURKB; the link phase answers only
the single batched request for `hsa:991+hsa:9212`. -/
def c4Net : Net :=
  { emptyNet with
    keggFindGenes := fun g =>
      if g = str "CDC20" then
        .resp 200 (str "hsa:991\tCDC20, CDC20A; cell division cycle 20\nptr:100172878\tCDC20; cell division cycle 20")
      else if g = str "AURKB" then
        .resp 200 (str "hsa:9212\tAURKB; aurora kinase B")
      else .netFail
    keggLinkPathway := fun ids =>
      if ids = str "hsa:991+hsa:9212" then .resp 200 (str "hsa:991\tpath:hsa04110")
      else .netFail }

/-- C5 network for the witness: the mapping endpoint answers the batched
POST for `CDC20,AURKB` with two pathway records, one duplicated. -/
def c5Net : Net :=
  { emptyNet with
    reactomeMapping := fun speciesId body =>
      if speciesId = str "48887" && body = str "CDC20,AURKB" then
        .resp 200 { pathways := some [⟨str "R-HSA-68886"⟩, ⟨str "R-HSA-1640170"⟩, ⟨str "R-HSA-68886"⟩] }
      else .netFail }

/-- Whether a Phase-1 find response for `g` completed with an OK HTTP
status (the only failure mode the source handles inline, via
`res.ok ? res.text() : Promise.resolve('')`). -/
def okFind (net : Net) (g : JStr) : Bool :=
  match net.keggFindGenes g with
  | .resp status _ => statusOk status
  | .netFail => false

/-- C1 counterexample network: the find request for CDC20 rejects at the
network level; the one for AURKB resolves to `hsa:9212`, and the link
endpoint maps `hsa:9212` to `path:hsa04110`. -/
def c1Net : Net :=
  { emptyNet with
    keggFindGenes := fun g =>
      if g = str "AURKB" then .resp 200 (str "hsa:9212\tAURKB; aurora kinase B")
      else .netFail
    keggLinkPathway := fun ids =>
      if ids = str "hsa:9212" then .resp 200 (str "hsa:9212\tpath:hsa04110")
      else .netFail }

/-- Witness network for the amended C1: the find request for `A` answers
with status 500 (no network rejection), the one for `B` resolves to
`hsa:1`, and every link call answers with status 500. -/
def c1wNet : Net :=
  { emptyNet with
    keggFindGenes := fun g =>
      if g = str "B" then .resp 200 (str "hsa:1\tgene B")
      else .resp 500 []
    keggLinkPathway := fun _ => .resp 500 [] }

/-- The older selection of the C2 trace: identifier-set snapshot X. -/
def selX : Selection :=
  { database := .Reactome, speciesId := str "48887", geneIds := [str "CDC20"] }

/-- The newer selection of the C2 trace: identifier-set snapshot Y. -/
def selY : Selection :=
  { database := .Reactome, speciesId := str "48887",
    geneIds := [str "CDC20", str "AURKB"] }

/-- Initial component state for the C2 trace: selection X, no highlights. -/
def c2InitState : SidebarState :=
  { selection := selX, highlightedPathways := [] }

/-- The C2 trace: with X's mapping request already in flight (its debounce
timer has fired, so the effect cleanup's `clearTimeout` cannot cancel it),
the selection changes to Y, Y's request resolves first with
`{R-HSA-2, R-HSA-3}`, and X's late response `{R-HSA-1}` arrives last. -/
def c2Trace : List SidebarEvent :=
  [ .select selY,
    .resolve selY [str "R-HSA-2", str "R-HSA-3"],
    .resolve selX [str "R-HSA-1"] ]

/-- C3 network: the KEGG pathway-list endpoint for `hsa` answers with one
pathway line; every other endpoint rejects. -/
def c3Net : Net :=
  { emptyNet with
    keggListPathway := fun sp =>
      if sp = str "hsa" then
        .resp 200 (str "path:hsa00010\tGlycolysis / Gluconeogenesis - Homo sapiens (human)")
      else .netFail }

/-- The id column of a successful species fetch (`[]` on error). -/
def okSpeciesIds (e : Except JStr (List Species)) : List JStr :=
  match e with
  | .ok l => l.map Species.id
  | .error _ => []

/-- C7 network with a duplicate-id payload: the KEGG organism list carries
two lines with the same organism code `hsa`. -/
def c7Net : Net :=
  { emptyNet with
    keggOrganisms := .resp 200 (str "T01001\thsa\tAlpha organism\nT09999\thsa\tBeta organism") }

/-- C7 witness network: a well-formed two-line KEGG organism payload. -/
def c7wNet : Net :=
  { emptyNet with
    keggOrganisms := .resp 200 (str "T01001\thsa\tHuman\nT01002\tptr\tChimp") }

/-- One step of the `speciesMap` pivot fold of `fetchSmpdbSpecies`
(`smpdbSpeciesMap data = data.foldl smpdbStep []` by definition). -/
def smpdbStep (m : List (JStr × JStr)) (p : SmpdbRec) : List (JStr × JStr) :=
  if truthyStr p.species_taxonomy_id && truthyStr p.species_name then
    jsMapSet m (p.species_taxonomy_id.getD []) (p.species_name.getD [])
  else m

/-- First-match association lookup on the pivot map (the unique match, once
the keys are distinct). -/
def assocFind (m : List (JStr × JStr)) (k : JStr) : Option JStr :=
  match m with
  | [] => none
  | kv :: rest => if kv.1 = k then some kv.2 else assocFind rest k

/-- Whether an SMPDB record contributes a pivot entry for taxonomy id `k`:
both pivot fields are truthy and its taxonomy id is `k`. -/
def smpdbPivotsTo (k : JStr) (p : SmpdbRec) : Bool :=
  (truthyStr p.species_taxonomy_id && truthyStr p.species_name) &&
    p.species_taxonomy_id == some k

/-- The display name C8 predicts for taxonomy id `k`: the `species_name` of
the last record of the global array pivoting to `k` (a later record with
the same taxonomy id overwrites an earlier one in the map). -/
def lastNameIn (data : List SmpdbRec) (k : JStr) : Option JStr :=
  ((data.filter (smpdbPivotsTo k)).getLast?).map fun p => p.species_name.getD []

/-- Concrete SMPDB global array for the C8 witness: two yeast records with
the same taxonomy id (the later one lacking an `smp_id`) and one human
record. -/
def c8Data : List SmpdbRec :=
  [ { species_taxonomy_id := some (str "4932"), species_name := some (str "Yeast"),
      smp_id := some (str "SMP00001"), name := some (str "Glycolysis") },
    { species_taxonomy_id := some (str "9606"), species_name := some (str "Homo sapiens"),
      smp_id := some (str "SMP00002"), name := some (str "TCA Cycle") },
    { species_taxonomy_id := some (str "4932"),
      species_name := some (str "Saccharomyces cerevisiae"),
      smp_id := none, name := some (str "Pyruvate Metabolism") } ]

/-- The network serving `c8Data` on the SMPDB endpoint. -/
def c8Net : Net := { emptyNet with smpdbPathways := .resp 200 c8Data }

theorem lowerLe_trans (a b c : JStr) (hab : lowerLe a b = true)
    (hbc : lowerLe b c = true) : lowerLe a c = true := by
  simp only [lowerLe, decide_eq_true_iff] at *
  exact le_trans hab hbc

theorem lowerLe_total (a b : JStr) : (lowerLe a b || lowerLe b a) = true := by
  simp only [lowerLe, Bool.or_eq_true, decide_eq_true_iff]
  exact le_total _ _

/-! # Theorems -/
/-! ## General lemmas about the JS `Set` model -/
theorem mem_addToSet (l : List JStr) (x y : JStr) :
    y ∈ addToSet l x ↔ y ∈ l ∨ y = x := by
  unfold addToSet
  by_cases h : x ∈ l
  · simp only [if_pos h]
    constructor
    · exact Or.inl
    · rintro (hy | rfl)
      · exact hy
      · exact h
  · simp [h]

theorem mem_foldl_addToSet {α : Type} (f : α → JStr) (l : List α)
    (init : List JStr) (x : JStr) :
    x ∈ l.foldl (fun s p => addToSet s (f p)) init ↔ x ∈ init ∨ x ∈ l.map f := by
  induction l generalizing init with
  | nil => simp
  | cons a t ih =>
    simp only [List.foldl_cons, List.map_cons, List.mem_cons]
    rw [ih, mem_addToSet]
    tauto

/-- C4: for the Source-B (KEGG) two-phase mapping with identifiers
`["CDC20","AURKB"]` and species `"hsa"`, where the find phase resolves
CDC20 to `hsa:991` (plus a `ptr:` line the species-code filter drops) and
AURKB to `hsa:9212`, and the link phase returns `hsa:991\tpath:hsa04110`,
the function issues one find request per identifier plus exactly one link
request whose ids are joined by `+`, and the resulting MatchSet is exactly
`{"hsa04110"}` with the `path:` prefix stripped. -/
theorem kegg_two_phase_worked_example :
    mapGenesToPathwaysKegg c4Net (str "hsa") [str "CDC20", str "AURKB"] =
      ([.keggFindReq (str "CDC20"), .keggFindReq (str "AURKB"),
        .keggLinkReq (str "hsa:991+hsa:9212")],
       [str "hsa04110"]) := by decide

/-- C9: for every database selector and every network, `fetchPathways`
called with an empty species id string returns the empty list immediately:
it issues no network request (empty request log) and returns before the
per-source dispatch. -/
theorem fetchPathways_empty_species (net : Net) (database : PathwayDatabase) :
    fetchPathways net database [] = ([], .ok []) := by
  simp [fetchPathways]

/-- C10: `mapGenesToPathwaysKegg` returns an empty MatchSet and issues no
network request (empty request log) when the species id is empty or the
identifier list is empty; and when Phase 1 resolves no gene ids for the
active species, the requests issued are exactly the Phase-1 find requests —
no Phase-2 link request — and the MatchSet is empty. -/
theorem mapKegg_early_returns (net : Net) (speciesId : JStr) (geneIds : List JStr) :
    (speciesId = [] ∨ geneIds = [] →
      mapGenesToPathwaysKegg net speciesId geneIds = ([], [])) ∧
    (keggGeneIdsOf net speciesId geneIds = [] → speciesId ≠ [] → geneIds ≠ [] →
      mapGenesToPathwaysKegg net speciesId geneIds = (geneIds.map Request.keggFindReq, [])) := by
  constructor
  · rintro (h | h) <;> simp [mapGenesToPathwaysKegg, h]
  · intro hids hsp hg
    unfold mapGenesToPathwaysKegg mapGenesToPathwaysKeggInner
    rw [if_neg]
    · by_cases hnf : geneIds.any (fun g => net.keggFindGenes g = .netFail)
      · simp [hnf]
      · simp [hnf, hids]
    · simp [hsp, hg]

/-- Witness for C10: on a concrete network, the empty-species call issues
nothing, and a call whose single find request matches no species line
issues exactly the one find request and no link request. -/
theorem mapKegg_early_returns_witness :
    mapGenesToPathwaysKegg emptyNet [] [str "A"] = ([], []) ∧
    mapGenesToPathwaysKegg (constNet 200) (str "hsa") [str "A"] =
      ([Request.keggFindReq (str "A")], []) :=
  ⟨(mapKegg_early_returns emptyNet [] [str "A"]).1 (Or.inl rfl),
   (mapKegg_early_returns (constNet 200) (str "hsa") [str "A"]).2
     (by decide) (by decide) (by decide)⟩

/-- C5: the Source-A (Reactome) mapper issues exactly one POST whose body
is the caller-supplied identifiers joined by commas in input order; on a
successful response carrying a `pathways` array the MatchSet has exactly
the `stId` values of that array as members (so it is independent of the
order in which they appear); and a transport failure — network rejection or
a non-2xx status — yields an empty MatchSet rather than an error. -/
theorem reactome_mapper_contract (net : Net) (speciesId : JStr) (geneIds : List JStr) :
    (mapGenesToPathways net speciesId geneIds).1 =
      [Request.reactomeMappingReq speciesId (jsJoin (str ",") geneIds)] ∧
    (net.reactomeMapping speciesId (jsJoin (str ",") geneIds) = .netFail →
      (mapGenesToPathways net speciesId geneIds).2 = []) ∧
    (∀ status data,
      net.reactomeMapping speciesId (jsJoin (str ",") geneIds) = .resp status data →
      statusOk status = false → (mapGenesToPathways net speciesId geneIds).2 = []) ∧
    (∀ status pws,
      net.reactomeMapping speciesId (jsJoin (str ",") geneIds) =
        .resp status { pathways := some pws } → statusOk status = true →
      ∀ x, x ∈ (mapGenesToPathways net speciesId geneIds).2 ↔
        x ∈ pws.map ReactomeMapPathwayRec.stId) := by
  refine ⟨?_, ?_, ?_, ?_⟩
  · simp only [mapGenesToPathways]
    cases hr : net.reactomeMapping speciesId (jsJoin (str ",") geneIds) with
    | netFail => rfl
    | resp status data =>
      by_cases hok : statusOk status
      · cases hp : data.pathways <;> simp [hok, hp]
      · simp [hok]
  · intro h
    simp [mapGenesToPathways, h]
  · intro status data h hbad
    simp [mapGenesToPathways, h, hbad]
  · intro status pws h hok x
    simp only [mapGenesToPathways, h, hok, Bool.not_true, Bool.false_eq_true, if_false]
    rw [mem_foldl_addToSet]
    simp

/-- Witness for C5: on `c5Net` the request body is `CDC20,AURKB`, and the
MatchSet contains exactly the two distinct `stId` values of the response. -/
theorem reactome_mapper_contract_witness :
    (mapGenesToPathways c5Net (str "48887") [str "CDC20", str "AURKB"]).1 =
      [Request.reactomeMappingReq (str "48887") (jsJoin (str ",") [str "CDC20", str "AURKB"])] ∧
    ((str "R-HSA-1640170") ∈ (mapGenesToPathways c5Net (str "48887") [str "CDC20", str "AURKB"]).2 ↔
      (str "R-HSA-1640170") ∈ List.map ReactomeMapPathwayRec.stId
        [⟨str "R-HSA-68886"⟩, ⟨str "R-HSA-1640170"⟩, ⟨str "R-HSA-68886"⟩]) ∧
    (mapGenesToPathways emptyNet (str "48887") [str "CDC20", str "AURKB"]).2 = [] :=
  ⟨(reactome_mapper_contract c5Net (str "48887") [str "CDC20", str "AURKB"]).1,
   (reactome_mapper_contract c5Net (str "48887") [str "CDC20", str "AURKB"]).2.2.2
     200 [⟨str "R-HSA-68886"⟩, ⟨str "R-HSA-1640170"⟩, ⟨str "R-HSA-68886"⟩]
     (by decide) (by decide) (str "R-HSA-1640170"),
   (reactome_mapper_contract emptyNet (str "48887") [str "CDC20", str "AURKB"]).2.1 rfl⟩

theorem foldl_filter_skip {α β : Type} (step : β → α → β) (p : α → Bool)
    (h : ∀ acc a, p a = false → step acc a = acc) :
    ∀ (l : List α) (init : β), l.foldl step init = (l.filter p).foldl step init := by
  intro l
  induction l with
  | nil => intro _; rfl
  | cons a t ih =>
    intro init
    by_cases hp : p a = true
    · simp [List.filter_cons, hp, ih]
    · have hf : p a = false := by
        cases hpa : p a
        · rfl
        · exact absurd hpa hp
      simp [List.filter_cons, hf, h init a hf, ih]

/-- Empty Phase-1 texts contribute nothing to the gene-id set. -/
theorem keggGeneIdsFromTexts_filter (speciesId : JStr) (texts : List JStr) :
    keggGeneIdsFromTexts speciesId texts =
      keggGeneIdsFromTexts speciesId (texts.filter (fun t => t ≠ [])) := by
  unfold keggGeneIdsFromTexts
  refine foldl_filter_skip _ _ ?_ texts []
  intro acc a ha
  have : a = [] := by simpa using ha
  simp [this]

/-- Identifiers whose find request completed with a non-OK status (hence an
empty text) contribute nothing to the Phase-1 gene-id set. -/
theorem keggGeneIdsOf_filter_ok (net : Net) (speciesId : JStr) (geneIds : List JStr) :
    keggGeneIdsOf net speciesId geneIds =
      keggGeneIdsOf net speciesId (geneIds.filter (okFind net)) := by
  unfold keggGeneIdsOf
  rw [keggGeneIdsFromTexts_filter,
    keggGeneIdsFromTexts_filter speciesId
      (List.map (fun g => keggFindText (net.keggFindGenes g)) (geneIds.filter (okFind net)))]
  congr 1
  rw [List.filter_map, List.filter_map, List.filter_filter]
  congr 1
  apply List.filter_congr
  intro g _
  cases hr : net.keggFindGenes g with
  | netFail => simp [Function.comp, keggFindText, hr, okFind]
  | resp status body =>
    by_cases hok : statusOk status <;>
      simp [Function.comp, keggFindText, hr, okFind, hok]

/-- The inner try-body result depends on the identifier list only through
the absence of network-level find failures and the Phase-1 gene-id set. -/
theorem mapKeggInner_snd_congr (net : Net) (speciesId : JStr) (gids gids' : List JStr)
    (h1 : gids.any (fun g => net.keggFindGenes g = .netFail) = false)
    (h2 : gids'.any (fun g => net.keggFindGenes g = .netFail) = false)
    (h3 : keggGeneIdsOf net speciesId gids = keggGeneIdsOf net speciesId gids') :
    (mapGenesToPathwaysKeggInner net speciesId gids).2 =
      (mapGenesToPathwaysKeggInner net speciesId gids').2 := by
  unfold mapGenesToPathwaysKeggInner
  simp only [h1, h2, h3, Bool.false_eq_true, if_false]
  by_cases he : (keggGeneIdsOf net speciesId gids').isEmpty
  · simp [he]
  · simp only [he, Bool.false_eq_true, if_false]
    cases hl : net.keggLinkPathway (jsJoin (str "+") (keggGeneIdsOf net speciesId gids')) with
    | netFail => simp
    | resp status linkText =>
      by_cases hok : statusOk status
      · simp [hok]
      · by_cases h404 : status = 404
        · subst h404
          have h4 : statusOk 404 = false := by decide
          simp [h4]
        · simp [hok, h404]

/-- C1 counterexample: a network-level failure of a single Phase-1 find
request aborts the whole batch.  On `c1Net` the batch
`["CDC20","AURKB"]` returns an empty MatchSet, although the remaining
identifier AURKB alone resolves and yields `{"hsa04110"}` — so the MatchSet
is not computed from the remaining identifiers' resolutions as the claim
states. -/
theorem kegg_phase1_netfail_aborts_batch :
    (mapGenesToPathwaysKegg c1Net (str "hsa") [str "CDC20", str "AURKB"]).2 = [] ∧
    (mapGenesToPathwaysKegg c1Net (str "hsa") [str "AURKB"]).2 = [str "hsa04110"] := by
  decide

/-- With a nonempty species id and identifier list, the outer function's
MatchSet is the inner try-body's result, with errors degraded to empty. -/
theorem mapKegg_snd_eq (net : Net) (speciesId : JStr) (gids : List JStr)
    (hsp : speciesId ≠ []) (hg : gids ≠ []) :
    (mapGenesToPathwaysKegg net speciesId gids).2 =
      match (mapGenesToPathwaysKeggInner net speciesId gids).2 with
      | .ok s => s
      | .error _ => [] := by
  unfold mapGenesToPathwaysKegg
  rw [if_neg (by simp [hsp, hg])]
  rcases h : mapGenesToPathwaysKeggInner net speciesId gids with ⟨log, r⟩
  cases r <;> simp

/-- C1 amended: in the Source-B mapper, a Phase-1 find request that
completes with a non-OK HTTP status does not abort the batch — the
MatchSet equals the one computed from the identifiers whose find requests
succeeded (a network-level rejection of a find request, by contrast,
rejects the whole `Promise.all`; see the counterexample).  For the single
link call: a non-404 failure status is an internal error, a 404 is a valid
empty result, and either way the caller-visible MatchSet is empty. -/
theorem kegg_phase1_failure_semantics (net : Net) (speciesId : JStr)
    (geneIds : List JStr)
    (hnf : ∀ g ∈ geneIds, net.keggFindGenes g ≠ .netFail) :
    (mapGenesToPathwaysKegg net speciesId geneIds).2 =
      (mapGenesToPathwaysKegg net speciesId (geneIds.filter (okFind net))).2 ∧
    (∀ status body,
      net.keggLinkPathway (jsJoin (str "+") (keggGeneIdsOf net speciesId geneIds)) =
        .resp status body →
      keggGeneIdsOf net speciesId geneIds ≠ [] →
      statusOk status = false →
      ((status ≠ 404 →
        (mapGenesToPathwaysKeggInner net speciesId geneIds).2 =
          .error (str "KEGG link API returned an error status")) ∧
       (status = 404 →
        (mapGenesToPathwaysKeggInner net speciesId geneIds).2 = .ok []) ∧
       (mapGenesToPathwaysKegg net speciesId geneIds).2 = [])) := by
  have h1 : geneIds.any (fun g => net.keggFindGenes g = .netFail) = false := by
    rw [List.any_eq_false]
    intro g hg
    simp [hnf g hg]
  have h2 : (geneIds.filter (okFind net)).any
      (fun g => net.keggFindGenes g = .netFail) = false := by
    rw [List.any_eq_false]
    intro g hg
    simp [hnf g (List.mem_filter.mp hg).1]
  have h3 := keggGeneIdsOf_filter_ok net speciesId geneIds
  constructor
  · by_cases hsp : speciesId = []
    · simp [mapGenesToPathwaysKegg, hsp]
    · by_cases hg : geneIds = []
      · simp [hg]
      · by_cases hg2 : geneIds.filter (okFind net) = []
        · have h4 : keggGeneIdsOf net speciesId geneIds = [] := by
            rw [h3, hg2]
            rfl
          rw [mapKegg_snd_eq net speciesId geneIds hsp hg]
          unfold mapGenesToPathwaysKeggInner
          simp [mapGenesToPathwaysKegg, h1, h4, hg2]
        · rw [mapKegg_snd_eq net speciesId geneIds hsp hg,
            mapKegg_snd_eq net speciesId (geneIds.filter (okFind net)) hsp hg2,
            mapKeggInner_snd_congr net speciesId geneIds (geneIds.filter (okFind net)) h1 h2 h3]
  · intro status body hl hne hbad
    have hne' : (keggGeneIdsOf net speciesId geneIds).isEmpty = false := by
      cases hke : keggGeneIdsOf net speciesId geneIds
      · exact absurd hke hne
      · rfl
    have hg : geneIds ≠ [] := by
      intro hg
      apply hne
      rw [hg]
      rfl
    refine ⟨?_, ?_, ?_⟩
    · intro h404
      unfold mapGenesToPathwaysKeggInner
      simp [h1, hne', hl, hbad, h404]
    · intro h404
      subst h404
      have h4 : statusOk 404 = false := by decide
      unfold mapGenesToPathwaysKeggInner
      simp [h1, hne', hl, h4]
    · by_cases hsp : speciesId = []
      · simp [mapGenesToPathwaysKegg, hsp]
      · rw [mapKegg_snd_eq net speciesId geneIds hsp hg]
        unfold mapGenesToPathwaysKeggInner
        by_cases h404 : status = 404
        · subst h404
          have h4 : statusOk 404 = false := by decide
          simp [h1, hne', hl, h4]
        · simp [h1, hne', hl, hbad, h404]

/-- Witness for the amended C1, at the concrete network `c1wNet`. -/
theorem kegg_phase1_failure_semantics_witness :
    (mapGenesToPathwaysKegg c1wNet (str "hsa") [str "A", str "B"]).2 =
      (mapGenesToPathwaysKegg c1wNet (str "hsa")
        ([str "A", str "B"].filter (okFind c1wNet))).2 ∧
    (mapGenesToPathwaysKeggInner c1wNet (str "hsa") [str "A", str "B"]).2 =
      .error (str "KEGG link API returned an error status") ∧
    (mapGenesToPathwaysKegg c1wNet (str "hsa") [str "A", str "B"]).2 = [] :=
  have h := kegg_phase1_failure_semantics c1wNet (str "hsa") [str "A", str "B"]
    (by decide)
  have hlink := h.2 500 [] (by decide) (by decide) (by decide)
  ⟨h.1, hlink.1 (by decide), hlink.2.2⟩

/-- C2 (code bug): the source applies every mapping response by
`setHighlightedPathways(mappedPathwayIds)` with no tag of the originating
selection and no staleness check, so on the C2 trace the late response for
the old identifier-set X overwrites the MatchSet produced for the current
selection Y — the final highlight set is X's `{R-HSA-1}` even though the
selection is Y.  The spec-required handler (`sidebarStepSpec`, which
discards responses whose origin differs from the current selection) keeps
Y's MatchSet `{R-HSA-2, R-HSA-3}` on the same trace. -/
theorem stale_mapping_response_overwrites :
    (runSidebar c2InitState c2Trace).selection = selY ∧
    (runSidebar c2InitState c2Trace).highlightedPathways = [str "R-HSA-1"] ∧
    (runSidebarSpec c2InitState c2Trace).highlightedPathways =
      [str "R-HSA-2", str "R-HSA-3"] := by
  decide

/-- C3 counterexample: `fetchPathways` performs no memoization — there is
no cache in the service layer — so two consecutive
`fetchPathways(KEGG, "hsa")` calls with no selection change issue two
network requests in total, not exactly one as the claim states. -/
theorem fetchPathways_not_memoized :
    ((fetchPathways c3Net .KEGG (str "hsa")).1 ++
      (fetchPathways c3Net .KEGG (str "hsa")).1).length = 2 ∧
    ¬ ((fetchPathways c3Net .KEGG (str "hsa")).1 ++
      (fetchPathways c3Net .KEGG (str "hsa")).1).length = 1 := by
  decide

/-- C3 amended: `fetchPathways` is uncached.  With a nonempty species id,
each call itself issues exactly one network request for every
network-backed source (and none for METACROP or a custom SBGN file, which
have no endpoint), so two consecutive identical calls issue two requests;
against an unchanged network the two calls return identical results (the
function is deterministic in the network state).  The fetched lists are
held only in component state upstream, which refetches when the selection
changes. -/
theorem fetchReactomePathways_log (net : Net) (sp : JStr) :
    (fetchReactomePathways net sp).1 = [Request.reactomePathwaysReq sp] := by
  unfold fetchReactomePathways
  rcases hr : net.reactomePathways sp with _ | ⟨status, data⟩ <;> simp only [hr]
  by_cases hok : statusOk status
  · simp [hok]
  · by_cases h404 : status = 404
    · subst h404
      have h4 : statusOk 404 = false := by decide
      simp [h4]
    · simp [hok, h404]

theorem fetchKeggPathways_log (net : Net) (sp : JStr) :
    (fetchKeggPathways net sp).1 = [Request.keggListPathwayReq sp] := by
  unfold fetchKeggPathways
  rcases hr : net.keggListPathway sp with _ | ⟨status, textData⟩ <;> simp only [hr]
  by_cases hok : statusOk status
  · by_cases he : jsTrim textData = [] <;> simp [hok, he]
  · simp [hok]

theorem fetchSmpdbPathways_log (net : Net) (sp : JStr) :
    (fetchSmpdbPathways net sp).1 = [Request.smpdbPathwaysReq] := by
  unfold fetchSmpdbPathways
  rcases hr : net.smpdbPathways with _ | ⟨status, data⟩ <;> simp only [hr]
  by_cases hok : statusOk status <;> simp [hok]

theorem fetchPantherPathways_log (net : Net) (sp : JStr) :
    (fetchPantherPathways net sp).1 = [Request.pantherPathwaysReq sp] := by
  unfold fetchPantherPathways
  rcases hr : net.pantherPathways sp with _ | ⟨status, data⟩ <;> simp only [hr]
  by_cases hok : statusOk status
  · cases data <;> simp [hok]
  · simp [hok]

theorem fetchMetaCycPathways_log (net : Net) (sp : JStr) :
    (fetchMetaCycPathways net sp).1 = [Request.metacycPathwaysReq sp] := by
  unfold fetchMetaCycPathways
  rcases hr : net.metacycPathways sp with _ | ⟨status, els⟩ <;> simp only [hr]
  by_cases hok : statusOk status
  · simp [hok]
  · by_cases h404 : status = 404
    · subst h404
      have h4 : statusOk 404 = false := by decide
      simp [h4]
    · simp [hok, h404]

theorem fetchPathways_uncached_per_call (net : Net) (db : PathwayDatabase)
    (speciesId : JStr) (hsp : speciesId ≠ []) :
    (db ≠ .METACROP → db ≠ .CustomSBGNFile →
      (fetchPathways net db speciesId).1.length = 1) ∧
    ((db = .METACROP ∨ db = .CustomSBGNFile) →
      (fetchPathways net db speciesId).1 = []) ∧
    (fetchPathways net db speciesId).2 = (fetchPathways net db speciesId).2 := by
  refine ⟨?_, ?_, rfl⟩
  · intro h1 h2
    cases db with
    | Reactome =>
      simp [fetchPathways, if_neg hsp, fetchReactomePathways_log]
    | KEGG =>
      simp [fetchPathways, if_neg hsp, fetchKeggPathways_log]
    | SMPDB =>
      simp [fetchPathways, if_neg hsp, fetchSmpdbPathways_log]
    | PANTHER =>
      simp [fetchPathways, if_neg hsp, fetchPantherPathways_log]
    | MetaCyc =>
      simp [fetchPathways, if_neg hsp, fetchMetaCycPathways_log]
    | METACROP => exact absurd rfl h1
    | CustomSBGNFile => exact absurd rfl h2
  · rintro (rfl | rfl) <;> simp [fetchPathways, hsp, fetchMetaCropPathways]

/-- Witness for the amended C3 on the concrete network `c3Net`: one request
per call for KEGG, none for METACROP. -/
theorem fetchPathways_uncached_per_call_witness :
    (fetchPathways c3Net .KEGG (str "hsa")).1.length = 1 ∧
    (fetchPathways c3Net .METACROP (str "hsa")).1 = [] :=
  ⟨(fetchPathways_uncached_per_call c3Net .KEGG (str "hsa") (by decide)).1
      (by decide) (by decide),
   (fetchPathways_uncached_per_call c3Net .METACROP (str "hsa") (by decide)).2.1
      (Or.inl rfl)⟩

/-- C6 counterexample: an HTTP 404 on the KEGG pathway-list endpoint is
*not* treated as an empty valid result — `fetchKeggPathways` throws on any
non-OK status, so `fetchPathways(KEGG, ·)` surfaces the catch error instead
of `[]`. -/
theorem kegg_pathways_404_throws :
    (fetchPathways (constNet 404) .KEGG (str "hsa")).2 =
      .error (str "Failed to fetch pathways from KEGG. The CORS proxy may be down.") ∧
    (fetchPathways (constNet 404) .KEGG (str "hsa")).2 ≠ .ok [] := by
  have h : (fetchPathways (constNet 404) .KEGG (str "hsa")).2 =
      .error (str "Failed to fetch pathways from KEGG. The CORS proxy may be down.") := rfl
  refine ⟨h, ?_⟩
  intro hcontra
  rw [h] at hcontra
  exact Except.noConfusion hcontra

/-- C6 amended: the per-source "no data" and error behaviours of
`fetchPathways`.  A 404 is an empty valid result for Reactome and MetaCyc
only; the empty-with-no-data cases for the other sources are an empty
response body (KEGG), a missing nested path (PANTHER), no matching records
in the global array (SMPDB), and an empty payload array (Reactome,
MetaCyc).  A 404 on KEGG, SMPDB or PANTHER throws, and a simulated 500
throws for every network-backed source, with an error message naming the
source.  METACROP and the custom-SBGN selector consult no network and
never throw. -/
theorem fetchPathways_error_taxonomy (speciesId : JStr) (hsp : speciesId ≠ []) :
    (fetchPathways (constNet 404) .Reactome speciesId).2 = .ok [] ∧
    (fetchPathways (constNet 404) .MetaCyc speciesId).2 = .ok [] ∧
    (fetchPathways (constNet 200) .KEGG speciesId).2 = .ok [] ∧
    (fetchPathways (constNet 200) .PANTHER speciesId).2 = .ok [] ∧
    (fetchPathways (constNet 200) .SMPDB speciesId).2 = .ok [] ∧
    (fetchPathways (constNet 200) .Reactome speciesId).2 = .ok [] ∧
    (fetchPathways (constNet 200) .MetaCyc speciesId).2 = .ok [] ∧
    (fetchPathways (constNet 404) .KEGG speciesId).2 =
      .error (str "Failed to fetch pathways from KEGG. The CORS proxy may be down.") ∧
    (fetchPathways (constNet 404) .SMPDB speciesId).2 =
      .error (str "Failed to fetch pathways from SMPDB. Check network connection or API status.") ∧
    (fetchPathways (constNet 404) .PANTHER speciesId).2 =
      .error (str "Failed to fetch pathways from PANTHER. The CORS proxy may be down.") ∧
    (fetchPathways (constNet 500) .Reactome speciesId).2 =
      .error (str "Failed to fetch pathways from Reactome. Check network connection or API status.") ∧
    (fetchPathways (constNet 500) .KEGG speciesId).2 =
      .error (str "Failed to fetch pathways from KEGG. The CORS proxy may be down.") ∧
    (fetchPathways (constNet 500) .SMPDB speciesId).2 =
      .error (str "Failed to fetch pathways from SMPDB. Check network connection or API status.") ∧
    (fetchPathways (constNet 500) .PANTHER speciesId).2 =
      .error (str "Failed to fetch pathways from PANTHER. The CORS proxy may be down.") ∧
    (fetchPathways (constNet 500) .MetaCyc speciesId).2 =
      .error (str "Failed to fetch pathways from MetaCyc. Check network connection or API status.") ∧
    (∀ net : Net, ∃ l, (fetchPathways net .METACROP speciesId).2 = .ok l) ∧
    (∀ net : Net, (fetchPathways net .CustomSBGNFile speciesId).2 = .ok []) := by
  have h404 : statusOk 404 = false := by decide
  have h200 : statusOk 200 = true := by decide
  have h500 : statusOk 500 = false := by decide
  refine ⟨?_, ?_, ?_, ?_, ?_, ?_, ?_, ?_, ?_, ?_, ?_, ?_, ?_, ?_, ?_, ?_, ?_⟩
  · simp [fetchPathways, hsp, fetchReactomePathways, constNet, h404]
  · simp [fetchPathways, hsp, fetchMetaCycPathways, constNet, h404]
  · simp [fetchPathways, hsp, fetchKeggPathways, constNet, h200, jsTrim]
  · simp [fetchPathways, hsp, fetchPantherPathways, constNet, h200]
  · simp [fetchPathways, hsp, fetchSmpdbPathways, constNet, h200, sortPathways]
  · simp [fetchPathways, hsp, fetchReactomePathways, constNet, h200, sortPathways]
  · simp [fetchPathways, hsp, fetchMetaCycPathways, constNet, h200, sortPathways]
  · simp [fetchPathways, hsp, fetchKeggPathways, constNet, h404]
  · simp [fetchPathways, hsp, fetchSmpdbPathways, constNet, h404]
  · simp [fetchPathways, hsp, fetchPantherPathways, constNet, h404]
  · simp [fetchPathways, hsp, fetchReactomePathways, constNet, h500]
  · simp [fetchPathways, hsp, fetchKeggPathways, constNet, h500]
  · simp [fetchPathways, hsp, fetchSmpdbPathways, constNet, h500]
  · simp [fetchPathways, hsp, fetchPantherPathways, constNet, h500]
  · simp [fetchPathways, hsp, fetchMetaCycPathways, constNet, h500]
  · intro net
    have hm : (fetchPathways net .METACROP speciesId).2 =
        .ok (sortPathways (metaCropCommonPathways.map fun p =>
          { id := speciesId ++ (str "_") ++ p.2, displayName := p.1 })) := by
      simp [fetchPathways, hsp, fetchMetaCropPathways]
    exact ⟨_, hm⟩
  · intro net
    simp [fetchPathways, hsp]

/-- Witness for the amended C6 at the concrete species id `hsa`: Reactome's
404 is empty-valid, and KEGG's 500 surfaces the KEGG-naming error. -/
theorem fetchPathways_error_taxonomy_witness :
    (fetchPathways (constNet 404) .Reactome (str "hsa")).2 = .ok [] ∧
    (fetchPathways (constNet 500) .KEGG (str "hsa")).2 =
      .error (str "Failed to fetch pathways from KEGG. The CORS proxy may be down.") :=
  have h := fetchPathways_error_taxonomy (str "hsa") (by decide)
  ⟨h.1, h.2.2.2.2.2.2.2.2.2.2.2.1⟩

/-- C7 counterexample: the species fetchers do not deduplicate ids — on a
wire payload whose lines repeat the organism code `hsa`, `fetchSpecies` for
KEGG returns a list whose ids are not pairwise distinct. -/
theorem kegg_species_duplicate_ids :
    okSpeciesIds (fetchSpecies c7Net .KEGG) = [str "hsa", str "hsa"] ∧
    ¬ (okSpeciesIds (fetchSpecies c7Net .KEGG)).Nodup := by
  decide

/-- The result of the shared species sort is sorted by the
case-insensitive comparator. -/
theorem sortSpecies_sorted (l : List Species) :
    (sortSpecies l).Pairwise (fun a b => lowerLe a.displayName b.displayName = true) := by
  have htot : IsTotal Species (fun a b => lowerLe a.displayName b.displayName = true) := by
    constructor
    intro a b
    have h := lowerLe_total a.displayName b.displayName
    cases hab : lowerLe a.displayName b.displayName
    · rw [hab] at h
      simp only [Bool.false_or] at h
      exact Or.inr h
    · exact Or.inl rfl
  have htrans : IsTrans Species (fun a b => lowerLe a.displayName b.displayName = true) := by
    constructor
    intro a b c hab hbc
    exact lowerLe_trans _ _ _ hab hbc
  exact @List.sorted_insertionSort Species _ _ htot htrans l

/-- C7 amended: for every source and every wire payload, a successful
`fetchSpecies` result is sorted case-insensitively (lexically) by
`displayName`.  Pairwise-distinct ids, however, are not enforced by the
fetchers: a payload that repeats an id yields repeated ids (see the
counterexample); only SMPDB (whose species list is pivoted through a map
keyed by taxonomy id) and the hardcoded METACROP list have ids distinct by
construction. -/
theorem fetchSpecies_sorted (net : Net) (database : PathwayDatabase)
    (l : List Species) (h : fetchSpecies net database = .ok l) :
    l.Pairwise (fun a b => lowerLe a.displayName b.displayName = true) := by
  cases database with
  | Reactome =>
    unfold fetchSpecies fetchReactomeSpecies at h
    rcases hr : net.reactomeSpecies with _ | ⟨status, data⟩ <;> rw [hr] at h
    · simp at h
    · by_cases hok : statusOk status
      · simp only [hok, Bool.not_true, Bool.false_eq_true, if_false, Except.ok.injEq] at h
        exact h ▸ sortSpecies_sorted _
      · simp [hok] at h
  | KEGG =>
    unfold fetchSpecies fetchKeggSpecies at h
    rcases hr : net.keggOrganisms with _ | ⟨status, textData⟩ <;> rw [hr] at h
    · simp at h
    · by_cases hok : statusOk status
      · simp only [hok, Bool.not_true, Bool.false_eq_true, if_false, Except.ok.injEq] at h
        exact h ▸ sortSpecies_sorted _
      · simp [hok] at h
  | MetaCyc =>
    unfold fetchSpecies fetchMetaCycSpecies at h
    rcases hr : net.metacycDbs with _ | ⟨status, els⟩ <;> rw [hr] at h
    · simp at h
    · by_cases hok : statusOk status
      · simp only [hok, Bool.not_true, Bool.false_eq_true, if_false, Except.ok.injEq] at h
        exact h ▸ sortSpecies_sorted _
      · simp [hok] at h
  | SMPDB =>
    unfold fetchSpecies fetchSmpdbSpecies at h
    rcases hr : net.smpdbPathways with _ | ⟨status, data⟩ <;> rw [hr] at h
    · simp at h
    · by_cases hok : statusOk status
      · simp only [hok, Bool.not_true, Bool.false_eq_true, if_false, Except.ok.injEq] at h
        exact h ▸ sortSpecies_sorted _
      · simp [hok] at h
  | PANTHER =>
    unfold fetchSpecies fetchPantherSpecies at h
    rcases hr : net.pantherOrganisms with _ | ⟨status, data⟩ <;> rw [hr] at h
    · simp at h
    · by_cases hok : statusOk status
      · cases data with
        | none =>
          simp only [hok, Bool.not_true, Bool.false_eq_true, if_false, Except.ok.injEq] at h
          simp [← h]
        | some organisms =>
          simp only [hok, Bool.not_true, Bool.false_eq_true, if_false, Except.ok.injEq] at h
          exact h ▸ sortSpecies_sorted _
      · simp [hok] at h
  | METACROP =>
    unfold fetchSpecies fetchMetaCropSpecies at h
    rw [Except.ok.injEq] at h
    exact h ▸ sortSpecies_sorted _
  | CustomSBGNFile =>
    unfold fetchSpecies at h
    rw [Except.ok.injEq] at h
    simp [← h]

/-- Witness for the amended C7: the concrete KEGG fetch on `c7wNet`
returns the list sorted case-insensitively by name. -/
theorem fetchSpecies_sorted_witness :
    List.Pairwise (fun a b : Species => lowerLe a.displayName b.displayName = true)
      [{ id := str "ptr", displayName := str "Chimp" },
       { id := str "hsa", displayName := str "Human" }] :=
  fetchSpecies_sorted c7wNet .KEGG _ (by rfl)

theorem smpdbSpeciesMap_eq_foldl (data : List SmpdbRec) :
    smpdbSpeciesMap data = data.foldl smpdbStep [] := rfl

theorem assocFind_eq_none_of_any_false (m : List (JStr × JStr)) (k : JStr)
    (h : m.any (fun kv => kv.1 = k) = false) : assocFind m k = none := by
  induction m with
  | nil => rfl
  | cons kv rest ih =>
    rw [List.any_cons] at h
    rcases Bool.or_eq_false_iff.mp h with ⟨h1, h2⟩
    have hne : kv.1 ≠ k := by simpa using h1
    simp [assocFind, hne, ih h2]

theorem assocFind_ne_none_iff (m : List (JStr × JStr)) (k : JStr) :
    assocFind m k ≠ none ↔ k ∈ m.map Prod.fst := by
  induction m with
  | nil => simp [assocFind]
  | cons kv rest ih =>
    by_cases h : kv.1 = k
    · simp [assocFind, h]
    · have he : assocFind (kv :: rest) k = assocFind rest k := by
        simp [assocFind, h]
      rw [he, ih, List.map_cons, List.mem_cons]
      constructor
      · exact Or.inr
      · rintro (hk | hm)
        · exact absurd hk.symm h
        · exact hm

theorem assocFind_of_mem (m : List (JStr × JStr))
    (hnd : (m.map Prod.fst).Nodup) (kv : JStr × JStr) (h : kv ∈ m) :
    assocFind m kv.1 = some kv.2 := by
  induction m with
  | nil => exact absurd h (List.not_mem_nil _)
  | cons hd rest ih =>
    rw [List.map_cons, List.nodup_cons] at hnd
    rcases List.mem_cons.mp h with rfl | hmem
    · simp [assocFind]
    · have hne : hd.1 ≠ kv.1 := by
        intro he
        exact hnd.1 (he ▸ List.mem_map_of_mem Prod.fst hmem)
      simp [assocFind, hne, ih hnd.2 hmem]

theorem assocFind_update_ne (m : List (JStr × JStr)) (kp vp k : JStr)
    (hne : k ≠ kp) :
    assocFind (m.map fun kv => if kv.1 = kp then (kp, vp) else kv) k =
      assocFind m k := by
  induction m with
  | nil => rfl
  | cons kv rest ih =>
    rw [List.map_cons]
    by_cases h : kv.1 = kp
    · rw [if_pos h]
      simp only [assocFind]
      have h1 : ((kp, vp) : JStr × JStr).1 ≠ k := fun e => hne e.symm
      have h2 : kv.1 ≠ k := fun e => hne (h.symm.trans e).symm
      rw [if_neg h1, if_neg h2, ih]
    · rw [if_neg h]
      simp only [assocFind]
      by_cases hk : kv.1 = k
      · rw [if_pos hk, if_pos hk]
      · rw [if_neg hk, if_neg hk, ih]

theorem assocFind_update_eq (m : List (JStr × JStr)) (kp vp : JStr)
    (hany : m.any (fun kv => kv.1 = kp) = true) :
    assocFind (m.map fun kv => if kv.1 = kp then (kp, vp) else kv) kp =
      some vp := by
  induction m with
  | nil => simp at hany
  | cons kv rest ih =>
    by_cases h : kv.1 = kp
    · simp [assocFind, h]
    · rw [List.any_cons] at hany
      have h1 : (decide (kv.1 = kp)) = false := by simpa using h
      rw [h1, Bool.false_or] at hany
      simp [assocFind, h, ih hany]

theorem assocFind_append_single (m : List (JStr × JStr)) (kp vp k : JStr) :
    assocFind (m ++ [(kp, vp)]) k =
      match assocFind m k with
      | some w => some w
      | none => if kp = k then some vp else none := by
  induction m with
  | nil => rfl
  | cons kv rest ih =>
    rw [List.cons_append]
    simp only [assocFind]
    by_cases h : kv.1 = k
    · rw [if_pos h, if_pos h]
    · rw [if_neg h, if_neg h, ih]

theorem assocFind_jsMapSet (m : List (JStr × JStr)) (kp vp k : JStr) :
    assocFind (jsMapSet m kp vp) k =
      if kp = k then some vp else assocFind m k := by
  unfold jsMapSet
  by_cases hany : m.any (fun kv => kv.1 = kp) = true
  · rw [if_pos hany]
    by_cases hk : kp = k
    · subst hk
      rw [assocFind_update_eq m kp vp hany, if_pos rfl]
    · rw [assocFind_update_ne m kp vp k (fun e => hk e.symm), if_neg hk]
  · rw [if_neg hany, assocFind_append_single]
    have hanyf : m.any (fun kv => kv.1 = kp) = false := by
      cases hx : m.any (fun kv => kv.1 = kp)
      · rfl
      · exact absurd hx hany
    by_cases hk : kp = k
    · subst hk
      rw [assocFind_eq_none_of_any_false m kp hanyf]
    · cases hf : assocFind m k <;> simp [hf, hk]

theorem jsMapSet_keys_update (m : List (JStr × JStr)) (kp vp : JStr) :
    ((m.map fun kv => if kv.1 = kp then (kp, vp) else kv).map Prod.fst) =
      m.map Prod.fst := by
  rw [List.map_map]
  apply List.map_congr_left
  intro kv _
  by_cases h : kv.1 = kp <;> simp [h]

theorem smpdbFold_keys_nodup (data : List SmpdbRec) :
    ∀ m : List (JStr × JStr), (m.map Prod.fst).Nodup →
      ((data.foldl smpdbStep m).map Prod.fst).Nodup := by
  induction data with
  | nil => exact fun m h => h
  | cons p rest ih =>
    intro m h
    rw [List.foldl_cons]
    apply ih
    unfold smpdbStep
    by_cases hp : (truthyStr p.species_taxonomy_id && truthyStr p.species_name) = true
    · rw [if_pos hp]
      unfold jsMapSet
      by_cases hany : m.any (fun kv => kv.1 = p.species_taxonomy_id.getD []) = true
      · rw [if_pos hany, jsMapSet_keys_update]
        exact h
      · rw [if_neg hany, List.map_append]
        have hanyf : m.any (fun kv => kv.1 = p.species_taxonomy_id.getD []) = false := by
          cases hx : m.any (fun kv => kv.1 = p.species_taxonomy_id.getD [])
          · rfl
          · exact absurd hx hany
        have hnm : p.species_taxonomy_id.getD [] ∉ m.map Prod.fst := by
          intro hmem
          rcases List.mem_map.mp hmem with ⟨kv, hkv, he⟩
          have := List.any_eq_false.mp hanyf kv hkv
          simp [he] at this
        refine List.Nodup.append h (List.nodup_singleton _) ?_
        intro x hx hx'
        simp only [List.map_cons, List.map_nil, List.mem_singleton] at hx'
        exact hnm (hx' ▸ hx)
    · rw [if_neg hp]
      exact h

theorem lastNameIn_cons (p : SmpdbRec) (rest : List SmpdbRec) (k : JStr) :
    lastNameIn (p :: rest) k =
      if smpdbPivotsTo k p then
        match lastNameIn rest k with
        | some w => some w
        | none => some (p.species_name.getD [])
      else lastNameIn rest k := by
  unfold lastNameIn
  rw [List.filter_cons]
  by_cases hp : smpdbPivotsTo k p = true
  · rw [if_pos hp, if_pos hp]
    cases hre : rest.filter (smpdbPivotsTo k) with
    | nil => rfl
    | cons q qs =>
      rw [List.getLast?_cons_cons]
      cases hl : (q :: qs).getLast? with
      | none =>
        rw [List.getLast?_eq_none_iff] at hl
        exact absurd hl (List.cons_ne_nil q qs)
      | some x => rfl
  · rw [if_neg hp, if_neg hp]

theorem assocFind_smpdbFold (data : List SmpdbRec) :
    ∀ (m : List (JStr × JStr)) (k : JStr),
      assocFind (data.foldl smpdbStep m) k =
        match lastNameIn data k with
        | some w => some w
        | none => assocFind m k := by
  induction data with
  | nil =>
    intro m k
    rfl
  | cons p rest ih =>
    intro m k
    rw [List.foldl_cons, ih, lastNameIn_cons]
    by_cases hp : smpdbPivotsTo k p = true
    · rw [if_pos hp]
      have hpair := Bool.and_eq_true_iff.mp hp
      have htid : p.species_taxonomy_id = some k := beq_iff_eq.mp hpair.2
      have hkey : p.species_taxonomy_id.getD [] = k := by rw [htid]; rfl
      have hstep : smpdbStep m p = jsMapSet m k (p.species_name.getD []) := by
        unfold smpdbStep
        rw [if_pos hpair.1, hkey]
      cases hre : lastNameIn rest k with
      | some w => rfl
      | none =>
        show assocFind (smpdbStep m p) k = some (p.species_name.getD [])
        rw [hstep, assocFind_jsMapSet, if_pos rfl]
    · rw [if_neg hp]
      have hstep : assocFind (smpdbStep m p) k = assocFind m k := by
        unfold smpdbStep
        by_cases htr : (truthyStr p.species_taxonomy_id && truthyStr p.species_name) = true
        · rw [if_pos htr, assocFind_jsMapSet]
          have hne : p.species_taxonomy_id.getD [] ≠ k := by
            intro he
            apply hp
            unfold smpdbPivotsTo
            rw [htr, Bool.true_and]
            rcases Bool.and_eq_true_iff.mp htr with ⟨ht, _⟩
            cases htid : p.species_taxonomy_id with
            | none => rw [htid] at ht; simp [truthyStr] at ht
            | some t =>
              rw [htid] at he
              have ht2 : t = k := he
              rw [ht2]
              simp
          rw [if_neg hne]
        · rw [if_neg htr]
      cases hre : lastNameIn rest k with
      | some w => rfl
      | none =>
        show assocFind (smpdbStep m p) k = assocFind m k
        exact hstep

theorem lastNameIn_eq_none_iff (data : List SmpdbRec) (k : JStr) :
    lastNameIn data k = none ↔ (data.any (smpdbPivotsTo k)) = false := by
  unfold lastNameIn
  rw [Option.map_eq_none', List.getLast?_eq_none_iff, List.filter_eq_nil_iff,
    List.any_eq_false]

/-- C8: for SMPDB, given the single global pathway array: `fetchSpecies`
returns exactly one `Species` per distinct `species_taxonomy_id` occurring
(truthily) with a `species_name` — the returned ids are pairwise distinct,
an id is present exactly when some record of the array pivots to it, and a
later record with the same taxonomy id determines the `displayName` (map
overwrite) — and `fetchPathways(SMPDB, speciesId)` returns exactly the
records of the same global array whose `species_taxonomy_id` equals
`speciesId` and which carry an `smp_id` and a `name`, as
`{id: smp_id, displayName: name}` (as a permutation: the list is then
display-sorted). -/
theorem smpdb_pivot_and_filter (net : Net) (speciesId : JStr) (status : Nat)
    (data : List SmpdbRec)
    (hnet : net.smpdbPathways = .resp status data)
    (hok : statusOk status = true) :
    (∀ l, (fetchSmpdbPathways net speciesId).2 = .ok l →
      l.Perm ((data.filter (smpdbPathwayKeep speciesId)).map fun p =>
        ({ id := p.smp_id.getD [], displayName := p.name.getD [] } : Pathway))) ∧
    (∀ l, fetchSmpdbSpecies net.smpdbPathways = .ok l →
      (l.map Species.id).Nodup ∧
      (∀ tid, tid ∈ l.map Species.id ↔ (data.any (smpdbPivotsTo tid)) = true) ∧
      (∀ sp ∈ l, lastNameIn data sp.id = some sp.displayName)) := by
  constructor
  · intro l hl
    unfold fetchSmpdbPathways at hl
    rw [hnet] at hl
    simp only [hok, Bool.not_true, Bool.false_eq_true, if_false,
      Except.ok.injEq] at hl
    rw [← hl]
    exact List.perm_insertionSort _ _
  · intro l hl
    unfold fetchSmpdbSpecies at hl
    rw [hnet] at hl
    simp only [hok, Bool.not_true, Bool.false_eq_true, if_false,
      Except.ok.injEq] at hl
    have hperm : (sortSpecies ((smpdbSpeciesMap data).map fun kv =>
        ({ id := kv.1, displayName := kv.2 } : Species))).Perm
        ((smpdbSpeciesMap data).map fun kv =>
          ({ id := kv.1, displayName := kv.2 } : Species)) :=
      List.perm_insertionSort _ _
    have hkeysnd : ((smpdbSpeciesMap data).map Prod.fst).Nodup := by
      rw [smpdbSpeciesMap_eq_foldl]
      exact smpdbFold_keys_nodup data [] (by simp)
    have hids : (((smpdbSpeciesMap data).map fun kv =>
        ({ id := kv.1, displayName := kv.2 } : Species)).map Species.id) =
        (smpdbSpeciesMap data).map Prod.fst := by
      rw [List.map_map]
      rfl
    have hpm : ((sortSpecies ((smpdbSpeciesMap data).map fun kv =>
        ({ id := kv.1, displayName := kv.2 } : Species))).map Species.id).Perm
        ((smpdbSpeciesMap data).map Prod.fst) := by
      rw [← hids]
      exact hperm.map Species.id
    refine ⟨?_, ?_, ?_⟩
    · rw [← hl]
      exact hpm.nodup_iff.mpr hkeysnd
    · intro tid
      rw [← hl, hpm.mem_iff, ← assocFind_ne_none_iff, smpdbSpeciesMap_eq_foldl,
        assocFind_smpdbFold]
      cases hln : lastNameIn data tid with
      | some w =>
        constructor
        · intro _
          cases hx : data.any (smpdbPivotsTo tid) with
          | true => rfl
          | false =>
            rw [(lastNameIn_eq_none_iff data tid).mpr hx] at hln
            exact Option.noConfusion hln
        · intro _
          exact Option.noConfusion
      | none =>
        constructor
        · intro hcontra
          exact absurd rfl hcontra
        · intro hany
          rw [(lastNameIn_eq_none_iff data tid).mp hln] at hany
          exact Bool.noConfusion hany
    · intro sp hsp
      rw [← hl] at hsp
      have hsp2 : sp ∈ (smpdbSpeciesMap data).map (fun kv =>
          ({ id := kv.1, displayName := kv.2 } : Species)) :=
        hperm.mem_iff.mp hsp
      rcases List.mem_map.mp hsp2 with ⟨kv, hkv, rfl⟩
      have hfind : assocFind (smpdbSpeciesMap data) kv.1 = some kv.2 :=
        assocFind_of_mem _ hkeysnd kv hkv
      rw [smpdbSpeciesMap_eq_foldl, assocFind_smpdbFold] at hfind
      cases hln : lastNameIn data kv.1 with
      | some w =>
        rw [hln] at hfind
        exact hfind
      | none =>
        rw [hln] at hfind
        exact absurd hfind (by simp [assocFind])

/-- Witness for C8 on `c8Data`: the pathway fetch for taxonomy id 4932
returns exactly the one record carrying both `smp_id` and `name`; the
species ids are distinct; and the later duplicate record determines the
display name of taxonomy id 4932. -/
theorem smpdb_pivot_and_filter_witness :
    ([({ id := str "SMP00001", displayName := str "Glycolysis" } : Pathway)]).Perm
      ((c8Data.filter (smpdbPathwayKeep (str "4932"))).map fun p =>
        ({ id := p.smp_id.getD [], displayName := p.name.getD [] } : Pathway)) ∧
    (([ ({ id := str "9606", displayName := str "Homo sapiens" } : Species),
        { id := str "4932", displayName := str "Saccharomyces cerevisiae" } ]).map
      Species.id).Nodup ∧
    lastNameIn c8Data (str "4932") = some (str "Saccharomyces cerevisiae") :=
  have h := smpdb_pivot_and_filter c8Net (str "4932") 200 c8Data rfl (by decide)
  have hs := h.2
    [ ({ id := str "9606", displayName := str "Homo sapiens" } : Species),
      { id := str "4932", displayName := str "Saccharomyces cerevisiae" } ] (by rfl)
  ⟨h.1 [({ id := str "SMP00001", displayName := str "Glycolysis" } : Pathway)] (by rfl),
   hs.1,
   hs.2.2 ({ id := str "4932", displayName := str "Saccharomyces cerevisiae" } : Species)
     (by decide)⟩
